import Mathlib

/-!
Verification of the shared HTTP request/response pipeline of the tmdb
client library (tmdb.go): client handle construction and setters, the
retry policy, the two request executors, the error-decoding path and the
query-option formatting helper.  Machine integers of the source are
modelled as Int, durations are counted in seconds, HTTP bodies are
strings, and the transport is an explicit sequence of events consumed by
a fuel-indexed loop.
-/

/-- The client handle (struct Client in tmdb.go).  The embedded
http.Client is represented by its one observable field, the timeout in
seconds (0 = unset, matching the Go zero value). -/
structure Client where
  apiKey : String
  sessionID : String
  autoRetry : Bool
  withContext : Bool
  timeout : Int
deriving DecidableEq

/-- The API error envelope (struct Error in tmdb.go). -/
structure Error where
  StatusMessage : String
  Success : Bool
  StatusCode : Int
deriving DecidableEq

/-- Init (tmdb.go): fails on an empty api key, otherwise returns a
fresh handle with all other fields at their zero values. -/
def Init (apiKey : String) : Except String Client :=
  if apiKey = "" then Except.error "APIKey is empty"
  else Except.ok { apiKey := apiKey, sessionID := "", autoRetry := false,
                   withContext := false, timeout := 0 }

/-- SetSessionID (tmdb.go): fails on an empty session id leaving the
handle untouched, otherwise overwrites the stored session id.  The Go
method mutates the receiver; the model returns the updated handle
together with the optional error message. -/
def SetSessionID (c : Client) (sid : String) : Client × Option String :=
  if sid = "" then (c, some "The SessionID is empty")
  else ({ c with sessionID := sid }, none)

/-- http.StatusText restricted to the status codes exercised by this
development; Go returns the empty string for unknown codes. -/
def statusText (code : Int) : String :=
  if code = 200 then "OK"
  else if code = 202 then "Accepted"
  else if code = 204 then "No Content"
  else if code = 404 then "Not Found"
  else if code = 429 then "Too Many Requests"
  else if code = 500 then "Internal Server Error"
  else ""

/-- An HTTP response as seen by the executor loop: status code, headers
and the raw body. -/
structure HttpResp where
  statusCode : Int
  headers : List (String × String)
  body : String
deriving DecidableEq

/-- http.Header.Get: first value stored under the key, or the empty
string when the key is absent (canonicalisation is not modelled; the
source only ever asks for the literal key Retry-After). -/
def headerGet (hs : List (String × String)) (key : String) : String :=
  match hs.find? (fun p => p.1 == key) with
  | some p => p.2
  | none => ""

/-- strconv.ParseInt(s, 10, 32): an optional sign followed by at least
one ASCII digit and nothing else, with the value required to fit in a
signed 32-bit integer (out-of-range input is an error, hence none). -/
def parseInt32 (s : String) : Option Int :=
  match s.toList with
  | [] => none
  | c :: rest =>
    let signedPart : Bool × List Char :=
      if c = '-' then (true, rest)
      else if c = '+' then (false, rest)
      else (false, c :: rest)
    let neg := signedPart.1
    let digits := signedPart.2
    if digits.isEmpty then none
    else if digits.all (fun d => d.isDigit) then
      let n : Nat := digits.foldl (fun a d => a * 10 + (d.toNat - 48)) 0
      let v : Int := if neg then -(n : Int) else (n : Int)
      if -(2 ^ 31) ≤ v ∧ v ≤ 2 ^ 31 - 1 then some v else none
    else none

/-- defaultRetryDuration (tmdb.go), in seconds. -/
def defaultRetryDuration : Int := 5

/-- retryDuration (tmdb.go): reads the Retry-After header; an absent or
empty header, or one that strconv.ParseInt rejects, yields the default;
otherwise the parsed number of seconds (negative values included, since
ParseInt accepts a leading minus sign). -/
def retryDuration (r : HttpResp) : Int :=
  let retryTime := headerGet r.headers "Retry-After"
  if retryTime = "" then defaultRetryDuration
  else
    match parseInt32 retryTime with
    | none => defaultRetryDuration
    | some seconds => seconds

/-- shouldRetry (tmdb.go): exactly 202 (StatusAccepted) and 429
(StatusTooManyRequests). -/
def shouldRetry (status : Int) : Bool :=
  status == 202 || status == 429

/-- One hexadecimal digit, upper case, as used by Go's percent
escaping. -/
def hexDigit (n : Nat) : Char :=
  if n < 10 then Char.ofNat (48 + n) else Char.ofNat (65 + n - 10)

/-- url.QueryEscape on one character (ASCII model): unreserved bytes
(alphanumerics and - _ . ~) stay, space becomes a plus sign, every
other byte becomes a percent escape with upper-case hex digits. -/
def escapeChar (c : Char) : String :=
  if c.isAlphanum || c == '-' || c == '_' || c == '.' || c == '~' then
    String.singleton c
  else if c == ' ' then "+"
  else "%" ++ String.singleton (hexDigit (c.toNat / 16))
          ++ String.singleton (hexDigit (c.toNat % 16))

/-- url.QueryEscape (ASCII model), applied characterwise. -/
def queryEscape (s : String) : String :=
  String.join (s.toList.map escapeChar)

/-- fmtOptions (tmdb.go): starts from the empty string and, for each
entry of the (iteration-ordered) option mapping, appends
ampersand-key-equals-escaped-value.  The Go map is modelled as an
association list in iteration order. -/
def fmtOptions (urlOptions : List (String × String)) : String :=
  if urlOptions.length > 0 then
    urlOptions.foldl
      (fun options p => options ++ ("&" ++ p.1 ++ "=" ++ queryEscape p.2)) ""
  else ""

/-- The per-entry concatenation fmtOptions is specified to produce,
written as plain structural recursion. -/
def optionParts : List (String × String) → String
  | [] => ""
  | p :: rest => "&" ++ p.1 ++ "=" ++ queryEscape p.2 ++ optionParts rest

/-- Number of (possibly overlapping) occurrences of pat in s. -/
def countOccur (pat : List Char) (s : List Char) : Nat :=
  match s with
  | [] => if pat.isEmpty then 1 else 0
  | _ :: rest => (if pat.isPrefixOf s then 1 else 0) + countOccur pat rest

/-- Occurrence count of a pattern string inside a string. -/
def substringCount (s pat : String) : Nat :=
  countOccur pat.toList s.toList

/-- A flat JSON value as needed by the error envelope: string, boolean,
integer or null.  Nested objects and arrays are outside the model (the
envelope has none). -/
inductive JVal where
  | jstr (s : String)
  | jbool (b : Bool)
  | jint (n : Int)
  | jnull
deriving DecidableEq

/-- JSON whitespace. -/
def jsonWs (c : Char) : Bool :=
  c == ' ' || c == '\t' || c == '\n' || c == '\r'

/-- Scan the remainder of a JSON string literal (opening quote already
consumed), handling the two escapes the model supports; returns the
content and the rest of the input. -/
def scanJString : Nat → List Char → Option (List Char × List Char)
  | 0, _ => none
  | _, [] => none
  | fuel + 1, c :: rest =>
    if c = '"' then some ([], rest)
    else if c = '\\' then
      match rest with
      | [] => none
      | e :: rest2 =>
        if e = '"' || e = '\\' then
          match scanJString fuel rest2 with
          | some (s, r) => some (e :: s, r)
          | none => none
        else none
    else
      match scanJString fuel rest with
      | some (s, r) => some (c :: s, r)
      | none => none

/-- Digit run to a natural number. -/
def digitsToNat (ds : List Char) : Nat :=
  ds.foldl (fun a d => a * 10 + (d.toNat - 48)) 0

/-- Parse one flat JSON value. -/
def parseJValue (l : List Char) : Option (JVal × List Char) :=
  match l.dropWhile jsonWs with
  | [] => none
  | c :: rest =>
    if c = '"' then
      match scanJString (rest.length + 1) rest with
      | some (s, r) => some (JVal.jstr (String.mk s), r)
      | none => none
    else if c = 't' then
      match rest with
      | 'r' :: 'u' :: 'e' :: r => some (JVal.jbool true, r)
      | _ => none
    else if c = 'f' then
      match rest with
      | 'a' :: 'l' :: 's' :: 'e' :: r => some (JVal.jbool false, r)
      | _ => none
    else if c = 'n' then
      match rest with
      | 'u' :: 'l' :: 'l' :: r => some (JVal.jnull, r)
      | _ => none
    else if c = '-' then
      match rest.span (fun d => d.isDigit) with
      | (ds, r) => if ds.isEmpty then none
                   else some (JVal.jint (-(digitsToNat ds : Int)), r)
    else if c.isDigit then
      match (c :: rest).span (fun d => d.isDigit) with
      | (ds, r) => some (JVal.jint (digitsToNat ds), r)
    else none

/-- Parse one key-value member of a JSON object. -/
def parseJMember (l : List Char) : Option ((String × JVal) × List Char) :=
  match l.dropWhile jsonWs with
  | '"' :: rest =>
    match scanJString (rest.length + 1) rest with
    | some (k, r1) =>
      match r1.dropWhile jsonWs with
      | ':' :: r2 =>
        match parseJValue r2 with
        | some (v, r3) => some ((String.mk k, v), r3)
        | none => none
      | _ => none
    | none => none
  | _ => none

/-- Parse a non-empty member sequence up to and including the closing
brace of the object. -/
def parseJMemberSeq : Nat → List Char → Option (List (String × JVal) × List Char)
  | 0, _ => none
  | fuel + 1, l =>
    match parseJMember l with
    | none => none
    | some (kv, r) =>
      match r.dropWhile jsonWs with
      | ',' :: r2 =>
        match parseJMemberSeq fuel r2 with
        | some (ms, r3) => some (kv :: ms, r3)
        | none => none
      | '\x7d' :: r2 => some ([kv], r2)
      | _ => none

/-- Top-level parse for json.Decoder.Decode into the Error struct: an
object yields its member list, a literal null yields none-members (the
struct keeps its zero value), anything else is a decode error.
Trailing input after the value is ignored, as Decode does. -/
def parseTopValue (s : String) : Option (Option (List (String × JVal))) :=
  match s.toList.dropWhile jsonWs with
  | '\x7b' :: rest =>
    match rest.dropWhile jsonWs with
    | '\x7d' :: _ => some (some [])
    | _ =>
      match parseJMemberSeq (rest.length + 1) rest with
      | some (ms, _) => some (some ms)
      | none => none
  | 'n' :: 'u' :: 'l' :: 'l' :: _ => some none
  | _ => none

/-- One object member applied to the envelope being decoded, following
encoding/json: matching key with matching type sets the field, a null
value leaves it, a type mismatch is a decode error, unknown keys are
ignored, later duplicates win. -/
def applyMember (e : Error) (kv : String × JVal) : Option Error :=
  match kv with
  | ("status_message", JVal.jstr s) => some { e with StatusMessage := s }
  | ("status_message", JVal.jnull) => some e
  | ("status_message", _) => none
  | ("success", JVal.jbool b) => some { e with Success := b }
  | ("success", JVal.jnull) => some e
  | ("success", _) => none
  | ("status_code", JVal.jint n) => some { e with StatusCode := n }
  | ("status_code", JVal.jnull) => some e
  | ("status_code", _) => none
  | _ => some e

/-- json.NewDecoder(...).Decode(&clientError) on a raw body, for the
flat envelope shape (exact-case keys; the bodies this development
reasons about are all of that shape). -/
def parseErrorEnvelope (s : String) : Option Error :=
  match parseTopValue s with
  | none => none
  | some none => some { StatusMessage := "", Success := false, StatusCode := 0 }
  | some (some ms) =>
    ms.foldlM applyMember { StatusMessage := "", Success := false, StatusCode := 0 }

/-- The three shapes of value decodeError (tmdb.go) can return: the
generic empty-body error carrying the status code and its standard
text, the diagnostic fallback carrying the raw byte length and the raw
bytes, and the decoded API error envelope. -/
inductive DecErr where
  | emptyBody (code : Int) (text : String)
  | rawFallback (len : Nat) (raw : String)
  | api (e : Error)
deriving DecidableEq

/-- decodeError (tmdb.go): empty body yields the generic error, a body
the envelope decoder rejects yields the raw diagnostic fallback, and a
decodable body yields the envelope itself.  (ReadAll errors cannot
occur on the modelled string bodies.) -/
def decodeError (r : HttpResp) : DecErr :=
  if r.body.length = 0 then DecErr.emptyBody r.statusCode (statusText r.statusCode)
  else
    match parseErrorEnvelope r.body with
    | none => DecErr.rawFallback r.body.length r.body
    | some e => DecErr.api e

/-- Error.Error (tmdb.go): the fmt.Sprintf rendering
code-pipe-success-pipe-message, with the boolean printed as true or
false. -/
def Error.Error (e : Error) : String :=
  "code: " ++ toString e.StatusCode ++ " | success: " ++ toString e.Success
    ++ " | message: " ++ e.StatusMessage

/-- One interaction with the transport: either http.Client.Do fails, or
it yields a response. -/
inductive TransportEvent where
  | err (msg : String)
  | resp (r : HttpResp)
deriving DecidableEq

/-- What one executor invocation can produce: a transport error
surfaced verbatim, a usage error (empty url), an API error from
decodeError, a failed decode of a success body, a 204 success with the
decode target untouched, or a decoded success payload. -/
inductive ExecOutcome (α : Type) where
  | transportErr (msg : String)
  | usageErr (msg : String)
  | apiErr (e : DecErr)
  | decodeFail
  | okNoContent
  | okDecoded (a : α)
deriving DecidableEq

/-- Result of one loop iteration: go around again (sleep happened), or
exit with an outcome. -/
inductive StepRes (α : Type) where
  | retry
  | done (o : ExecOutcome α)
deriving DecidableEq

/-- Whether a step result continues the loop. -/
def StepRes.isRetry : StepRes α → Bool
  | StepRes.retry => true
  | StepRes.done _ => false

/-- The body of the for-loop of get (tmdb.go), in source order: a Do
error returns it; 429 with the auto-retry flag sleeps and continues;
204 succeeds with no decoding; any other non-200 status is decoded as
an API error; a 200 body is decoded into the target.  The decode of the
caller-chosen target type is the parameter dec. -/
def getStep (c : Client) (dec : String → Option α) (ev : TransportEvent) : StepRes α :=
  match ev with
  | TransportEvent.err msg => StepRes.done (ExecOutcome.transportErr msg)
  | TransportEvent.resp r =>
    if r.statusCode = 429 ∧ c.autoRetry = true then StepRes.retry
    else if r.statusCode = 204 then StepRes.done ExecOutcome.okNoContent
    else if r.statusCode ≠ 200 then StepRes.done (ExecOutcome.apiErr (decodeError r))
    else
      match dec r.body with
      | some a => StepRes.done (ExecOutcome.okDecoded a)
      | none => StepRes.done ExecOutcome.decodeFail

/-- The body of the for-loop of request (tmdb.go), in source order: a
Do error returns it; the auto-retry flag together with shouldRetry
(202 or 429) sleeps and continues; a status at least 300, below 200 or
exactly 204 is decoded as an API error; anything else is decoded into
the target. -/
def requestStep (c : Client) (dec : String → Option α) (ev : TransportEvent) : StepRes α :=
  match ev with
  | TransportEvent.err msg => StepRes.done (ExecOutcome.transportErr msg)
  | TransportEvent.resp r =>
    if c.autoRetry = true ∧ shouldRetry r.statusCode = true then StepRes.retry
    else if r.statusCode ≥ 300 ∨ r.statusCode < 200 ∨ r.statusCode = 204 then
      StepRes.done (ExecOutcome.apiErr (decodeError r))
    else
      match dec r.body with
      | some a => StepRes.done (ExecOutcome.okDecoded a)
      | none => StepRes.done ExecOutcome.decodeFail

/-- The unbounded for-loop of both executors, run against a transport
given as the sequence of events of its successive sends, with explicit
fuel: none means the loop is still running after that many iterations.
On exit it reports the outcome together with the number of sends
performed (final index plus one). -/
def runLoop (step : TransportEvent → StepRes α) (tr : Nat → TransportEvent) :
    Nat → Nat → Option (ExecOutcome α × Nat)
  | _, 0 => none
  | i, fuel + 1 =>
    match step (tr i) with
    | StepRes.retry => runLoop step tr (i + 1) fuel
    | StepRes.done o => some (o, i + 1)

/-- get (tmdb.go): empty url fails at once with no send and the handle
untouched; otherwise the 10-second timeout default is applied to the
handle and the loop runs.  Request construction errors cannot occur for
the modelled well-formed urls, and the withContext branch only changes
how the request is built, not the observable control flow. -/
def get (c : Client) (url : String) (dec : String → Option α)
    (tr : Nat → TransportEvent) (fuel : Nat) :
    Client × Option (ExecOutcome α × Nat) :=
  if url = "" then (c, some (ExecOutcome.usageErr "url field is empty", 0))
  else
    let c2 := if c.timeout = 0 then { c with timeout := 10 } else c
    (c2, runLoop (getStep c2 dec) tr 0 fuel)

/-- request (tmdb.go): same frame as get (empty-url check, timeout
default), then the body-verb loop.  The encoded body and the method
only shape the outbound request, which the transport model does not
inspect. -/
def request (c : Client) (url : String) (body : β) (method : String)
    (dec : String → Option α) (tr : Nat → TransportEvent) (fuel : Nat) :
    Client × Option (ExecOutcome α × Nat) :=
  if url = "" then (c, some (ExecOutcome.usageErr "url field is empty", 0))
  else
    let c2 := if c.timeout = 0 then { c with timeout := 10 } else c
    (c2, runLoop (requestStep c2 dec) tr 0 fuel)

/-- The condition under which the get loop re-sends, stated on the raw
transport event. -/
def getRetryTrigger (c : Client) (ev : TransportEvent) : Bool :=
  match ev with
  | TransportEvent.err _ => false
  | TransportEvent.resp r => decide (r.statusCode = 429) && c.autoRetry

/-- The condition under which the request loop re-sends, stated on the
raw transport event. -/
def requestRetryTrigger (c : Client) (ev : TransportEvent) : Bool :=
  match ev with
  | TransportEvent.err _ => false
  | TransportEvent.resp r => c.autoRetry && shouldRetry r.statusCode

/-- Sample handle with auto-retry off. -/
def cPlain : Client :=
  { apiKey := "key", sessionID := "", autoRetry := false,
    withContext := false, timeout := 0 }

/-- Sample handle with auto-retry on. -/
def cAuto : Client :=
  { apiKey := "key", sessionID := "", autoRetry := true,
    withContext := false, timeout := 0 }

/-- Sample target decoder: succeeds exactly on the body ok. -/
def decUnit : String → Option Unit :=
  fun s => if s = "ok" then some () else none

/-- Sample responses. -/
def resp429e : HttpResp := { statusCode := 429, headers := [], body := "" }

def resp202e : HttpResp := { statusCode := 202, headers := [], body := "" }

def resp200ok : HttpResp := { statusCode := 200, headers := [], body := "ok" }

def resp500body : HttpResp :=
  { statusCode := 500, headers := [],
    body := "\x7b\"status_message\":\"fail\",\"success\":false,\"status_code\":500\x7d" }

/-- Sample transport: 429 on the first send, then 200 with a decodable
body. -/
def trRetryOk : Nat → TransportEvent :=
  fun n => if n = 0 then TransportEvent.resp resp429e else TransportEvent.resp resp200ok

/-- Sample transport: every send yields the decodable 200. -/
def trAll200 : Nat → TransportEvent :=
  fun _ => TransportEvent.resp resp200ok

/-- Sample transport: every send yields an empty-bodied 429. -/
def trAll429 : Nat → TransportEvent :=
  fun _ => TransportEvent.resp resp429e

/-- Sample transport: every send yields an empty-bodied 202. -/
def trAll202 : Nat → TransportEvent :=
  fun _ => TransportEvent.resp resp202e

/-- Sample response carrying a negative Retry-After header. -/
def respNeg3 : HttpResp :=
  { statusCode := 429, headers := [("Retry-After", "-3")], body := "" }

/-- Sample response carrying Retry-After 3. -/
def resp3Hdr : HttpResp :=
  { statusCode := 429, headers := [("Retry-After", "3")], body := "" }

/-- Sample response whose body is not the JSON envelope. -/
def respJunk : HttpResp :=
  { statusCode := 500, headers := [], body := "junk" }

theorem strLengthZero (s : String) : s.length = 0 ↔ s = "" := by
  cases s with
  | mk data => cases data <;> simp [String.length, String.ext_iff]

theorem fmtOptionsFoldl (l : List (String × String)) (acc : String) :
    l.foldl (fun options p => options ++ ("&" ++ p.1 ++ "=" ++ queryEscape p.2)) acc
      = acc ++ optionParts l := by
  induction l generalizing acc with
  | nil => simp [optionParts]
  | cons p rest ih =>
    rw [List.foldl_cons, ih]
    simp [optionParts, String.append_assoc]

/-- C8: shouldRetry is true exactly on status codes 202 and 429, and in
particular false on 200 and 404. -/
theorem shouldRetry_exact (s : Int) :
    (shouldRetry s = true ↔ s = 202 ∨ s = 429)
    ∧ shouldRetry 200 = false ∧ shouldRetry 404 = false := by
  refine ⟨?_, rfl, rfl⟩
  simp [shouldRetry]

/-- C8 witness: the four spec instances of shouldRetry. -/
theorem shouldRetry_exact_witness :
    shouldRetry 202 = true ∧ shouldRetry 429 = true
    ∧ shouldRetry 200 = false ∧ shouldRetry 404 = false :=
  ⟨(shouldRetry_exact 202).1.mpr (Or.inl rfl),
   (shouldRetry_exact 429).1.mpr (Or.inr rfl),
   (shouldRetry_exact 200).2.1,
   (shouldRetry_exact 404).2.2⟩

/-- C3 counterexample: the header value -3 parses under strconv.ParseInt,
so retryDuration returns -3 seconds rather than the claimed default of
5 for a header that is not a non-negative integer. -/
theorem retryDuration_negative_counterexample :
    retryDuration respNeg3 = -3 ∧ retryDuration respNeg3 ≠ defaultRetryDuration := by
  constructor
  · rfl
  · decide

/-- C3 amended: retryDuration returns the default 5 seconds when the
Retry-After header is absent (or empty) or fails to parse as a signed
32-bit integer, and otherwise returns the parsed integer number of
seconds, negative values included. -/
theorem retryDuration_amended (r : HttpResp) :
    (headerGet r.headers "Retry-After" = "" → retryDuration r = defaultRetryDuration)
    ∧ (∀ v : String, headerGet r.headers "Retry-After" = v → v ≠ "" →
        parseInt32 v = none → retryDuration r = defaultRetryDuration)
    ∧ (∀ (v : String) (n : Int), headerGet r.headers "Retry-After" = v → v ≠ "" →
        parseInt32 v = some n → retryDuration r = n) := by
  refine ⟨?_, ?_, ?_⟩
  · intro h
    simp [retryDuration, h]
  · intro v hv hne hp
    simp [retryDuration, hv, hne, hp]
  · intro v n hv hne hp
    simp [retryDuration, hv, hne, hp]

/-- C3 witness: Retry-After 3 gives 3 seconds, a missing header gives
the default 5, a non-numeric header gives the default 5. -/
theorem retryDuration_amended_witness :
    retryDuration resp3Hdr = 3
    ∧ retryDuration resp429e = defaultRetryDuration
    ∧ retryDuration { statusCode := 429, headers := [("Retry-After", "abc")], body := "" }
        = defaultRetryDuration :=
  ⟨(retryDuration_amended resp3Hdr).2.2 "3" 3 rfl (by decide) rfl,
   (retryDuration_amended resp429e).1 rfl,
   (retryDuration_amended _).2.1 "abc" rfl (by decide) rfl⟩

/-- C4 counterexample: fmtOptions escapes the space of the value 1 2 as
a plus sign (url.QueryEscape), so the output contains the substring
ampersand-a-equals-1-percent-2-0-2 zero times, not exactly once, in
either entry order. -/
theorem fmtOptions_percent20_counterexample :
    substringCount (fmtOptions [("a", "1 2"), ("b", "x")]) "&a=1%202" = 0
    ∧ substringCount (fmtOptions [("b", "x"), ("a", "1 2")]) "&a=1%202" = 0 := by
  constructor <;> rfl

/-- C4 amended: fmtOptions is the concatenation over entries of
ampersand, key, equals and the query-escaped value (spaces becoming
plus signs), and on the mapping a maps-to 1 2, b maps-to x the output
contains the substrings ampersand-a-equals-1-plus-2 and
ampersand-b-equals-x each exactly once, in either entry order. -/
theorem fmtOptions_amended (l : List (String × String)) :
    fmtOptions l = optionParts l
    ∧ substringCount (fmtOptions [("a", "1 2"), ("b", "x")]) "&a=1+2" = 1
    ∧ substringCount (fmtOptions [("a", "1 2"), ("b", "x")]) "&b=x" = 1
    ∧ substringCount (fmtOptions [("b", "x"), ("a", "1 2")]) "&a=1+2" = 1
    ∧ substringCount (fmtOptions [("b", "x"), ("a", "1 2")]) "&b=x" = 1 := by
  refine ⟨?_, rfl, rfl, rfl, rfl⟩
  cases l with
  | nil => rfl
  | cons p rest =>
    simp only [fmtOptions, List.length_cons]
    rw [if_pos (by omega), fmtOptionsFoldl]
    simp

/-- C4 witness: the general concatenation shape evaluated on the
two-entry mapping of the claim. -/
theorem fmtOptions_amended_witness :
    fmtOptions [("a", "1 2"), ("b", "x")] = optionParts [("a", "1 2"), ("b", "x")]
    ∧ substringCount (fmtOptions [("a", "1 2"), ("b", "x")]) "&a=1+2" = 1 :=
  ⟨(fmtOptions_amended [("a", "1 2"), ("b", "x")]).1,
   (fmtOptions_amended []).2.1⟩

/-- C6: decodeError returns the generic status-code-and-text error on an
empty body, the raw length-and-bytes fallback on a body that the
envelope decode rejects, and the decoded envelope otherwise; on a 500
response with the spec's envelope body it yields the API error with
message fail, success false, code 500, whose rendered form is the
pipe-separated string of the claim. -/
theorem decodeError_spec (r : HttpResp) :
    (r.body = "" → decodeError r = DecErr.emptyBody r.statusCode (statusText r.statusCode))
    ∧ (r.body ≠ "" → parseErrorEnvelope r.body = none →
        decodeError r = DecErr.rawFallback r.body.length r.body)
    ∧ (∀ e : Error, r.body ≠ "" → parseErrorEnvelope r.body = some e →
        decodeError r = DecErr.api e)
    ∧ decodeError resp500body
        = DecErr.api { StatusMessage := "fail", Success := false, StatusCode := 500 }
    ∧ Error.Error { StatusMessage := "fail", Success := false, StatusCode := 500 }
        = "code: 500 | success: false | message: fail" := by
  refine ⟨?_, ?_, ?_, rfl, rfl⟩
  · intro h
    simp [decodeError, h]
  · intro h hp
    have hl : ¬ r.body.length = 0 := by
      simpa [strLengthZero] using h
    simp [decodeError, hl, hp]
  · intro e h hp
    have hl : ¬ r.body.length = 0 := by
      simpa [strLengthZero] using h
    simp [decodeError, hl, hp]

/-- C6 witness: the three branches at concrete responses. -/
theorem decodeError_spec_witness :
    decodeError resp429e = DecErr.emptyBody 429 "Too Many Requests"
    ∧ decodeError respJunk = DecErr.rawFallback 4 "junk"
    ∧ decodeError resp500body
        = DecErr.api { StatusMessage := "fail", Success := false, StatusCode := 500 } :=
  ⟨(decodeError_spec resp429e).1 rfl,
   (decodeError_spec respJunk).2.1 (by decide) rfl,
   (decodeError_spec resp500body).2.2.2.1⟩

/-- C7: every empty-string input (api key at construction, session id,
url at either executor entry) fails at once with a usage error, with no
send performed (send count 0) and the handle unchanged; a non-empty
session id overwrites the stored one. -/
theorem emptyInputs_spec {α β : Type} (c : Client) (sid : String)
    (dec : String → Option α) (tr : Nat → TransportEvent) (fuel : Nat)
    (body : β) (method : String) :
    Init "" = Except.error "APIKey is empty"
    ∧ SetSessionID c "" = (c, some "The SessionID is empty")
    ∧ (sid ≠ "" → SetSessionID c sid = ({ c with sessionID := sid }, none))
    ∧ get c "" dec tr fuel = (c, some (ExecOutcome.usageErr "url field is empty", 0))
    ∧ request c "" body method dec tr fuel
        = (c, some (ExecOutcome.usageErr "url field is empty", 0)) := by
  refine ⟨rfl, rfl, ?_, rfl, rfl⟩
  intro h
  simp [SetSessionID, h]

/-- C7 witness: the behaviors at a concrete handle, session id, and
transport. -/
theorem emptyInputs_spec_witness :
    SetSessionID cPlain "sid" = ({ cPlain with sessionID := "sid" }, none)
    ∧ get cPlain "" decUnit trAll200 3
        = (cPlain, some (ExecOutcome.usageErr "url field is empty", 0)) :=
  ⟨(emptyInputs_spec cPlain "sid" decUnit trAll200 3 "b" "POST").2.2.1 (by decide),
   (emptyInputs_spec cPlain "sid" decUnit trAll200 3 "b" "POST").2.2.2.1⟩

/-- Sample 204 response. -/
def resp204e : HttpResp := { statusCode := 204, headers := [], body := "" }

theorem getStepIsRetry {α : Type} (c : Client) (dec : String → Option α)
    (ev : TransportEvent) :
    (getStep c dec ev).isRetry = getRetryTrigger c ev := by
  cases ev with
  | err m => rfl
  | resp r =>
    simp only [getStep, getRetryTrigger]
    by_cases hc : r.statusCode = 429 ∧ c.autoRetry = true
    · rw [if_pos hc]
      simp [StepRes.isRetry, hc.1, hc.2]
    · rw [if_neg hc]
      have hr : (decide (r.statusCode = 429) && c.autoRetry) = false := by
        rcases Classical.em (r.statusCode = 429) with h1 | h1
        · have h2 : c.autoRetry = false := by
            cases h2 : c.autoRetry
            · rfl
            · exact absurd ⟨h1, h2⟩ hc
          simp [h2]
        · simp [h1]
      rw [hr]
      split
      · rfl
      · split
        · rfl
        · cases dec r.body <;> rfl

theorem requestStepIsRetry {α : Type} (c : Client) (dec : String → Option α)
    (ev : TransportEvent) :
    (requestStep c dec ev).isRetry = requestRetryTrigger c ev := by
  cases ev with
  | err m => rfl
  | resp r =>
    simp only [requestStep, requestRetryTrigger]
    by_cases hc : c.autoRetry = true ∧ shouldRetry r.statusCode = true
    · rw [if_pos hc]
      simp [StepRes.isRetry, hc.1, hc.2]
    · rw [if_neg hc]
      have hr : (c.autoRetry && shouldRetry r.statusCode) = false := by
        cases h1 : c.autoRetry
        · rfl
        · cases h2 : shouldRetry r.statusCode
          · simp
          · exact absurd ⟨h1, h2⟩ hc
      rw [hr]
      split
      · rfl
      · cases dec r.body <;> rfl

/-- C1 counterexample: with auto-retry enabled, a 202 response makes
the GET executor return an API error after exactly one send instead of
sleeping and re-sending as the claim requires of both entry points. -/
theorem get_202_no_retry_counterexample :
    cAuto.autoRetry = true
    ∧ (get cAuto "u" decUnit trAll202 1).2
        = some (ExecOutcome.apiErr (DecErr.emptyBody 202 "Accepted"), 1) := by
  exact ⟨rfl, rfl⟩

/-- C1 amended: the GET executor re-sends exactly when the status is
429 and auto-retry is enabled, while the body-bearing executor re-sends
exactly when auto-retry is enabled and the status is 202 or 429; with
the flag disabled a 429 is surfaced as an API error by both paths,
whereas a 202 is surfaced as an API error by the GET executor but
treated as a success status (decoded into the target) by the
body-bearing executor. -/
theorem retry_eligibility_amended {α : Type} (c : Client) (dec : String → Option α)
    (r : HttpResp) :
    ((getStep c dec (TransportEvent.resp r)).isRetry = true
        ↔ (r.statusCode = 429 ∧ c.autoRetry = true))
    ∧ ((requestStep c dec (TransportEvent.resp r)).isRetry = true
        ↔ (c.autoRetry = true ∧ (r.statusCode = 202 ∨ r.statusCode = 429)))
    ∧ (c.autoRetry = false → r.statusCode = 429 →
        getStep c dec (TransportEvent.resp r)
            = StepRes.done (ExecOutcome.apiErr (decodeError r))
        ∧ requestStep c dec (TransportEvent.resp r)
            = StepRes.done (ExecOutcome.apiErr (decodeError r)))
    ∧ (c.autoRetry = false → r.statusCode = 202 →
        getStep c dec (TransportEvent.resp r)
            = StepRes.done (ExecOutcome.apiErr (decodeError r))
        ∧ requestStep c dec (TransportEvent.resp r)
            = (match dec r.body with
               | some a => StepRes.done (ExecOutcome.okDecoded a)
               | none => StepRes.done ExecOutcome.decodeFail)) := by
  refine ⟨?_, ?_, ?_, ?_⟩
  · rw [getStepIsRetry]
    simp [getRetryTrigger]
  · rw [requestStepIsRetry]
    simp [requestRetryTrigger, shouldRetry, and_assoc]
  · intro hc h429
    constructor
    · simp [getStep, hc, h429]
    · simp [requestStep, hc, h429, shouldRetry]
  · intro hc h202
    constructor
    · simp [getStep, hc, h202]
    · simp [requestStep, hc, h202, shouldRetry]

/-- C1 witness: the four concrete retry decisions of the amended
statement. -/
theorem retry_eligibility_amended_witness :
    (getStep cAuto decUnit (TransportEvent.resp resp429e)).isRetry = true
    ∧ (requestStep cAuto decUnit (TransportEvent.resp resp202e)).isRetry = true
    ∧ getStep cPlain decUnit (TransportEvent.resp resp429e)
        = StepRes.done (ExecOutcome.apiErr (DecErr.emptyBody 429 "Too Many Requests"))
    ∧ requestStep cPlain decUnit (TransportEvent.resp resp202e)
        = StepRes.done ExecOutcome.decodeFail := by
  refine ⟨?_, ?_, ?_, ?_⟩
  · exact (retry_eligibility_amended cAuto decUnit resp429e).1.mpr ⟨rfl, rfl⟩
  · exact (retry_eligibility_amended cAuto decUnit resp202e).2.1.mpr ⟨rfl, Or.inl rfl⟩
  · exact ((retry_eligibility_amended cPlain decUnit resp429e).2.2.1 rfl rfl).1
  · exact ((retry_eligibility_amended cPlain decUnit resp202e).2.2.2 rfl rfl).2

/-- C5 counterexample: 429 is a status of at least 300, yet with
auto-retry enabled the body-bearing executor re-sends instead of
decoding it and returning it as an API error. -/
theorem request_429_not_error_counterexample :
    requestStep cAuto decUnit (TransportEvent.resp resp429e) = StepRes.retry
    ∧ (429 : Int) ≥ 300 := by
  exact ⟨rfl, by decide⟩

/-- C5 amended: a 204 makes the GET executor succeed without touching
the decode target, while the body-bearing executor decodes it and
returns it as an API error, as it does every status of at least 300 or
below 200 that is not taken by the auto-retry branch (202/429 with the
flag enabled). -/
theorem noContent_amended {α : Type} (c : Client) (dec : String → Option α)
    (r : HttpResp) :
    (r.statusCode = 204 →
      getStep c dec (TransportEvent.resp r) = StepRes.done ExecOutcome.okNoContent)
    ∧ (r.statusCode = 204 →
        requestStep c dec (TransportEvent.resp r)
          = StepRes.done (ExecOutcome.apiErr (decodeError r)))
    ∧ ((r.statusCode ≥ 300 ∨ r.statusCode < 200) →
        ¬(c.autoRetry = true ∧ shouldRetry r.statusCode = true) →
        requestStep c dec (TransportEvent.resp r)
          = StepRes.done (ExecOutcome.apiErr (decodeError r))) := by
  refine ⟨?_, ?_, ?_⟩
  · intro h
    simp [getStep, h]
  · intro h
    simp [requestStep, h, shouldRetry]
  · intro h1 h2
    simp only [requestStep]
    rw [if_neg h2]
    rcases h1 with h | h
    · rw [if_pos (Or.inl h)]
    · rw [if_pos (Or.inr (Or.inl h))]

/-- C5 witness: the 204 behaviors and a plain 500 on the body path. -/
theorem noContent_amended_witness :
    getStep cPlain decUnit (TransportEvent.resp resp204e)
        = StepRes.done ExecOutcome.okNoContent
    ∧ requestStep cPlain decUnit (TransportEvent.resp resp204e)
        = StepRes.done (ExecOutcome.apiErr (DecErr.emptyBody 204 "No Content"))
    ∧ requestStep cPlain decUnit (TransportEvent.resp respJunk)
        = StepRes.done (ExecOutcome.apiErr (DecErr.rawFallback 4 "junk")) := by
  refine ⟨?_, ?_, ?_⟩
  · exact (noContent_amended cPlain decUnit resp204e).1 rfl
  · exact (noContent_amended cPlain decUnit resp204e).2.1 rfl
  · exact (noContent_amended cPlain decUnit respJunk).2.2 (Or.inl (by decide)) (by decide)

theorem getEq {α : Type} (c : Client) (url : String) (dec : String → Option α)
    (tr : Nat → TransportEvent) (fuel : Nat) :
    get c url dec tr fuel
      = if url = "" then (c, some (ExecOutcome.usageErr "url field is empty", 0))
        else ((if c.timeout = 0 then { c with timeout := 10 } else c),
              runLoop (getStep (if c.timeout = 0 then { c with timeout := 10 } else c) dec)
                tr 0 fuel) := rfl

theorem requestEq {α β : Type} (c : Client) (url : String) (body : β) (method : String)
    (dec : String → Option α) (tr : Nat → TransportEvent) (fuel : Nat) :
    request c url body method dec tr fuel
      = if url = "" then (c, some (ExecOutcome.usageErr "url field is empty", 0))
        else ((if c.timeout = 0 then { c with timeout := 10 } else c),
              runLoop (requestStep (if c.timeout = 0 then { c with timeout := 10 } else c) dec)
                tr 0 fuel) := rfl

/-- C10 counterexample: invoked with an empty url on a handle whose
timeout is unset, the executor returns before the timeout default is
applied, so the handle's timeout stays 0 rather than becoming 10. -/
theorem timeout_emptyUrl_counterexample :
    cPlain.timeout = 0 ∧ (get cPlain "" decUnit trAll200 1).1.timeout ≠ 10 := by
  exact ⟨rfl, by decide⟩

/-- C10 amended: on a non-empty url both executors return the handle
with only the timeout field updated (set to 10 when it was 0, kept
otherwise), a change that persists since the updated handle is the one
carried forward; on the empty-url path the handle is returned entirely
unchanged.  No field other than the timeout is modified on any path. -/
theorem timeout_frame_amended {α β : Type} (c : Client) (url : String)
    (dec : String → Option α) (tr : Nat → TransportEvent) (fuel : Nat)
    (body : β) (method : String) :
    (url ≠ "" →
      (get c url dec tr fuel).1
          = { c with timeout := if c.timeout = 0 then 10 else c.timeout }
      ∧ (request c url body method dec tr fuel).1
          = { c with timeout := if c.timeout = 0 then 10 else c.timeout })
    ∧ (get c "" dec tr fuel).1 = c
    ∧ (request c "" body method dec tr fuel).1 = c := by
  refine ⟨?_, rfl, rfl⟩
  intro h
  constructor
  · rw [getEq, if_neg h]
    by_cases ht : c.timeout = 0 <;> simp [ht]
  · rw [requestEq, if_neg h]
    by_cases ht : c.timeout = 0 <;> simp [ht]

/-- C10 witness: a handle with unset timeout gets timeout 10 on a
non-empty url, and stays unchanged on the empty url. -/
theorem timeout_frame_amended_witness :
    (get cAuto "u" decUnit trAll200 2).1 = { cAuto with timeout := 10 }
    ∧ (request cAuto "u" "b" "POST" decUnit trAll200 2).1 = { cAuto with timeout := 10 }
    ∧ (get cAuto "" decUnit trAll200 2).1 = cAuto := by
  refine ⟨?_, ?_, ?_⟩
  · exact ((timeout_frame_amended cAuto "u" decUnit trAll200 2 "b" "POST").1 (by decide)).1
  · exact ((timeout_frame_amended cAuto "u" decUnit trAll200 2 "b" "POST").1 (by decide)).2
  · exact (timeout_frame_amended cAuto "" decUnit trAll200 2 "b" "POST").2.1

theorem runLoopNoneOfRetry {α : Type} (step : TransportEvent → StepRes α)
    (tr : Nat → TransportEvent) (h : ∀ k, (step (tr k)).isRetry = true) :
    ∀ fuel i, runLoop step tr i fuel = none := by
  intro fuel
  induction fuel with
  | zero => intro i; rfl
  | succ n ih =>
    intro i
    simp only [runLoop]
    cases hs : step (tr i) with
    | retry => exact ih (i + 1)
    | done o =>
      have hi := h i
      rw [hs] at hi
      simp [StepRes.isRetry] at hi

theorem runLoopSomeOfTerminal {α : Type} (step : TransportEvent → StepRes α)
    (tr : Nat → TransportEvent) :
    ∀ fuel i k, i ≤ k → k < i + fuel → (step (tr k)).isRetry = false →
      ∃ res, runLoop step tr i fuel = some res := by
  intro fuel
  induction fuel with
  | zero =>
    intro i k h1 h2 h3
    omega
  | succ n ih =>
    intro i k h1 h2 h3
    simp only [runLoop]
    cases hs : step (tr i) with
    | done o => exact ⟨(o, i + 1), rfl⟩
    | retry =>
      have hik : i ≠ k := by
        intro he
        rw [← he, hs] at h3
        simp [StepRes.isRetry] at h3
      exact ih (i + 1) k (by omega) (by omega) h3

/-- C9: with auto-retry enabled there is no attempt cap: either loop
exits within some finite number of sends exactly when the transport
sequence contains a transport error or a response whose status does not
trigger a retry, and on a transport yielding only retry-triggering
responses the loop runs forever (no amount of fuel makes it return). -/
theorem retry_unbounded_spec {α : Type} (c : Client) (dec : String → Option α)
    (tr : Nat → TransportEvent) (h : c.autoRetry = true) :
    ((∃ fuel res, runLoop (getStep c dec) tr 0 fuel = some res)
        ↔ (∃ k, getRetryTrigger c (tr k) = false))
    ∧ ((∀ k, getRetryTrigger c (tr k) = true) →
        ∀ fuel, runLoop (getStep c dec) tr 0 fuel = none)
    ∧ ((∃ fuel res, runLoop (requestStep c dec) tr 0 fuel = some res)
        ↔ (∃ k, requestRetryTrigger c (tr k) = false))
    ∧ ((∀ k, requestRetryTrigger c (tr k) = true) →
        ∀ fuel, runLoop (requestStep c dec) tr 0 fuel = none) := by
  have g1 : ∀ ev, (getStep c dec ev).isRetry = getRetryTrigger c ev :=
    getStepIsRetry c dec
  have g2 : ∀ ev, (requestStep c dec ev).isRetry = requestRetryTrigger c ev :=
    requestStepIsRetry c dec
  refine ⟨⟨?_, ?_⟩, ?_, ⟨?_, ?_⟩, ?_⟩
  · rintro ⟨fuel, res, hrun⟩
    by_contra hno
    push_neg at hno
    have hall : ∀ k, (getStep c dec (tr k)).isRetry = true := by
      intro k
      rw [g1]
      cases hb : getRetryTrigger c (tr k)
      · exact absurd hb (hno k)
      · rfl
    rw [runLoopNoneOfRetry (getStep c dec) tr hall fuel 0] at hrun
    exact Option.noConfusion hrun
  · rintro ⟨k, hk⟩
    have h3 : (getStep c dec (tr k)).isRetry = false := by
      rw [g1]; exact hk
    obtain ⟨res, hres⟩ :=
      runLoopSomeOfTerminal (getStep c dec) tr (k + 1) 0 k (Nat.zero_le k) (by omega) h3
    exact ⟨k + 1, res, hres⟩
  · intro hall fuel
    exact runLoopNoneOfRetry (getStep c dec) tr
      (fun k => by rw [g1]; exact hall k) fuel 0
  · rintro ⟨fuel, res, hrun⟩
    by_contra hno
    push_neg at hno
    have hall : ∀ k, (requestStep c dec (tr k)).isRetry = true := by
      intro k
      rw [g2]
      cases hb : requestRetryTrigger c (tr k)
      · exact absurd hb (hno k)
      · rfl
    rw [runLoopNoneOfRetry (requestStep c dec) tr hall fuel 0] at hrun
    exact Option.noConfusion hrun
  · rintro ⟨k, hk⟩
    have h3 : (requestStep c dec (tr k)).isRetry = false := by
      rw [g2]; exact hk
    obtain ⟨res, hres⟩ :=
      runLoopSomeOfTerminal (requestStep c dec) tr (k + 1) 0 k (Nat.zero_le k) (by omega) h3
    exact ⟨k + 1, res, hres⟩
  · intro hall fuel
    exact runLoopNoneOfRetry (requestStep c dec) tr
      (fun k => by rw [g2]; exact hall k) fuel 0

/-- C9 witness: on a transport answering 429 forever with auto-retry
enabled, neither loop returns within 9 iterations. -/
theorem retry_unbounded_spec_witness :
    runLoop (getStep cAuto decUnit) trAll429 0 9 = none
    ∧ runLoop (requestStep cAuto decUnit) trAll429 0 9 = none :=
  ⟨(retry_unbounded_spec cAuto decUnit trAll429 rfl).2.1 (fun _ => rfl) 9,
   (retry_unbounded_spec cAuto decUnit trAll429 rfl).2.2.2 (fun _ => rfl) 9⟩

/-- C2: with auto-retry enabled, a transport answering 429 then 200
with a decodable body makes the GET executor perform exactly two sends
and return the second payload decoded into the target; with auto-retry
disabled a single (empty-bodied) 429 response costs exactly one send
and returns the API error carrying status code 429 and its standard
text. -/
theorem get_429_retry_spec {α : Type} (c : Client) (url : String)
    (dec : String → Option α) (tr : Nat → TransportEvent)
    (r0 r1 : HttpResp) (a : α) (hurl : url ≠ "") :
    (c.autoRetry = true → tr 0 = TransportEvent.resp r0 → r0.statusCode = 429 →
      tr 1 = TransportEvent.resp r1 → r1.statusCode = 200 → dec r1.body = some a →
      ∀ fuel, 2 ≤ fuel →
        (get c url dec tr fuel).2 = some (ExecOutcome.okDecoded a, 2))
    ∧ (c.autoRetry = false → tr 0 = TransportEvent.resp r0 → r0.statusCode = 429 →
        r0.body = "" →
        ∀ fuel, 1 ≤ fuel →
          (get c url dec tr fuel).2
            = some (ExecOutcome.apiErr (DecErr.emptyBody 429 (statusText 429)), 1)) := by
  constructor
  · intro hauto h0 hs0 h1 hs1 hdec fuel hfuel
    obtain ⟨k, rfl⟩ : ∃ k, fuel = k + 2 := ⟨fuel - 2, by omega⟩
    rw [getEq, if_neg hurl]
    have hC : (if c.timeout = 0 then { c with timeout := 10 } else c).autoRetry = true := by
      split <;> simpa using hauto
    have e0 : getStep (if c.timeout = 0 then { c with timeout := 10 } else c) dec (tr 0)
        = StepRes.retry := by
      rw [h0]
      simp [getStep, hs0, hC]
    have e1 : getStep (if c.timeout = 0 then { c with timeout := 10 } else c) dec (tr 1)
        = StepRes.done (ExecOutcome.okDecoded a) := by
      rw [h1]
      simp [getStep, hs1, hdec]
    show runLoop _ tr 0 (k + 1 + 1) = _
    simp only [runLoop, e0, e1]
  · intro hauto h0 hs0 hbody fuel hfuel
    obtain ⟨k, rfl⟩ : ∃ k, fuel = k + 1 := ⟨fuel - 1, by omega⟩
    rw [getEq, if_neg hurl]
    have hC : (if c.timeout = 0 then { c with timeout := 10 } else c).autoRetry = false := by
      split <;> simpa using hauto
    have e0 : getStep (if c.timeout = 0 then { c with timeout := 10 } else c) dec (tr 0)
        = StepRes.done (ExecOutcome.apiErr (DecErr.emptyBody 429 (statusText 429))) := by
      rw [h0]
      simp [getStep, hs0, hC, decodeError, hbody]
    show runLoop _ tr 0 (k + 1) = _
    simp only [runLoop, e0]

/-- C2 witness: the two spec scenarios run on concrete transports. -/
theorem get_429_retry_spec_witness :
    (get cAuto "u" decUnit trRetryOk 2).2 = some (ExecOutcome.okDecoded (), 2)
    ∧ (get cPlain "u" decUnit trAll429 1).2
        = some (ExecOutcome.apiErr (DecErr.emptyBody 429 "Too Many Requests"), 1) :=
  ⟨(get_429_retry_spec cAuto "u" decUnit trRetryOk resp429e resp200ok ()
      (by decide)).1 rfl rfl rfl rfl rfl rfl 2 (by decide),
   (get_429_retry_spec cPlain "u" decUnit trAll429 resp429e resp200ok ()
      (by decide)).2 rfl rfl rfl rfl 1 (by decide)⟩
